import Mathlib

/-!
Verification development for the `incident-scraper` owner-name resolution
orchestrator (`scrape_owner_names.py`).

The file shallowly embeds the script's data model and operations: the
jurisdiction router (`detect_town`, `group_addresses_by_town`), the two BAS
form-portal strategies (`search_bas_portal` / `parse_bas_response`), the
Playwright-driven Ramapo strategy, the Stony Point spreadsheet strategy, the
urllib3 retry configuration, input loading, and the orchestration entry point
(`main`).  External effects (HTTP responses, the browser, the downloaded
spreadsheet) are passed in explicitly as environment values; machine strings
are Lean `String`s, with Python's ASCII case mapping modelled explicitly.
Theorems at the end check the natural-language specification's claims.
-/

namespace Scraper

/-! ## Python string primitives

`lowerChar`/`upperChar` model Python's `str.lower`/`str.upper` on the ASCII
letters (the embedding's alphabet model; the town names and labels matched by
the script are ASCII).  `subMatch` models Python's substring test `in`.
-/

/-- ASCII lower-casing of one character (model of Python `str.lower`). -/
def lowerChar (c : Char) : Char :=
  if 65 ≤ c.toNat ∧ c.toNat ≤ 90 then Char.ofNat (c.toNat + 32) else c

/-- ASCII upper-casing of one character (model of Python `str.upper`). -/
def upperChar (c : Char) : Char :=
  if 97 ≤ c.toNat ∧ c.toNat ≤ 122 then Char.ofNat (c.toNat - 32) else c

/-- Python `s.lower()`. -/
def lowerStr (s : String) : String := ⟨s.data.map lowerChar⟩

/-- Python `s.upper()`. -/
def upperStr (s : String) : String := ⟨s.data.map upperChar⟩

/-- Does `hay` start with `needle`? -/
def leadMatch : List Char → List Char → Bool
  | [], _ => true
  | _ :: _, [] => false
  | c :: cs, d :: ds => c == d && leadMatch cs ds

/-- Does `needle` occur contiguously inside `hay`?  (Python `needle in hay`.) -/
def subMatch : List Char → List Char → Bool
  | needle, [] => needle.isEmpty
  | needle, d :: ds => leadMatch needle (d :: ds) || subMatch needle ds

/-- Case-insensitive containment: Python `needle.lower() in hay.lower()`. -/
def containsCI (hay needle : String) : Bool :=
  subMatch (needle.data.map lowerChar) (hay.data.map lowerChar)

/-- Python `s.strip()` / BeautifulSoup `get_text(strip=True)` on one text
node: leading and trailing whitespace removed. -/
def stripStr (s : String) : String :=
  ⟨((s.data.dropWhile Char.isWhitespace).reverse.dropWhile Char.isWhitespace).reverse⟩

/-! ## Data model (`ScrapeResult`, towns) -/

/-- The `ScrapeResult` dataclass of the script.  `status` is the literal
string the script stores: `"success"`, `"not found"` or `"error"`. -/
structure ScrapeResult where
  address : String
  owner_name : Option String
  source : String
  status : String
  deriving DecidableEq, Repr

/-- Python truthiness of an `Optional[str]` value (`if owner: ...`):
`None` and `""` are falsy, any non-empty string is truthy. -/
def truthy : Option String → Bool
  | none => false
  | some s => !(s == "")

/-- `TOWNS = ["Clarkstown", "Orangetown", "Ramapo", "Stony Point"]`. -/
def TOWNS : List String := ["Clarkstown", "Orangetown", "Ramapo", "Stony Point"]

/-- `detect_town`: first town whose lower-cased name occurs in the
lower-cased address, else `None`. -/
def detect_town (address : String) : Option String :=
  TOWNS.find? (fun town => containsCI address town)

/-- The dictionary key under which `group_addresses_by_town` files an
address: the detected town, or `"Unknown"`. -/
def bucketOf (address : String) : String := (detect_town address).getD "Unknown"

/-- Append `addr` to the entry of `key` in an association list (the effect
of `grouped[town].append(addr)` on the insertion-ordered dict). -/
def addToGroup : List (String × List String) → String → String → List (String × List String)
  | [], _, _ => []
  | (k, v) :: rest, key, addr =>
    if k == key then (k, v ++ [addr]) :: rest else (k, v) :: addToGroup rest key addr

/-- `group_addresses_by_town`: the insertion-ordered dict
`{town: [] for town in TOWNS}` plus an `"Unknown"` bucket, filled by one pass
over the addresses.  Modelled as an association list in key insertion order. -/
def group_addresses_by_town (addresses : List String) : List (String × List String) :=
  addresses.foldl (fun g addr => addToGroup g (bucketOf addr) addr)
    ((TOWNS ++ ["Unknown"]).map (fun k => (k, [])))

/-! ## BAS form portals (`parse_bas_response`, `search_bas_portal`) -/

/-- A fragment of the parsed response HTML, in document order: a table row
(the stripped text of its `td` cells, in order) or a loose text node that
sits in no table row. -/
inductive Node where
  | row (cells : List String)
  | text (s : String)
  deriving DecidableEq, Repr

/-- Does a string match the search `re.compile(r"Owner Name", re.I)`? -/
def ownerLabel (s : String) : Bool := containsCI s "Owner Name"

/-- Does a node contain a text match for the owner-name label? -/
def nodeLabel : Node → Bool
  | Node.row cells => cells.any ownerLabel
  | Node.text s => ownerLabel s

/-- `parse_bas_response`: find the first text node matching `"Owner Name"`
(case-insensitively); take its enclosing `tr`'s `td` cells and return the
second cell's stripped text if there are at least two, else `None`; if no
text matches, `None`.  A matching text node outside any `tr` makes
`find_parent("tr")` return `None`, so `.find_all` raises — modelled as
`Except.error`. -/
def parse_bas_response : List Node → Except Unit (Option String)
  | [] => Except.ok none
  | Node.text s :: rest =>
    if ownerLabel s then Except.error () else parse_bas_response rest
  | Node.row cells :: rest =>
    if cells.any ownerLabel then
      if 2 ≤ cells.length then Except.ok (some (stripStr (cells.getD 1 "")))
      else Except.ok none
    else parse_bas_response rest

/-- `re.match(r"(\d+)\s+(.*)", address)`: leading digit run, a whitespace
run, then the rest of the line as the street; on no match the house number
is `""` and the whole address is the street. -/
def splitAddress (address : String) : String × String :=
  let ds := address.data.takeWhile Char.isDigit
  let rest1 := address.data.dropWhile Char.isDigit
  let ws := rest1.takeWhile Char.isWhitespace
  let rest2 := rest1.dropWhile Char.isWhitespace
  if ds ≠ [] ∧ ws ≠ [] then (⟨ds⟩, ⟨rest2.takeWhile (fun c => !(c == '\n'))⟩)
  else ("", address)

/-- The network seen by a form-portal request: for a URL and a
`(house_number, street)` payload, either a parsed response body (the
`Node` list of its HTML) or an exception (connection error, or a
non-success status raised by `raise_for_status`). -/
def Net : Type := String → String × String → Except Unit (List Node)

/-- The `try` block of `search_bas_portal` applied to the response of the
`post` call: any exception (the request itself, `raise_for_status`, or
parsing) is caught and yields `status="error"` with no owner; otherwise
`status = "success" if owner else "not found"`. -/
def portalOutcome (address source : String) (resp : Except Unit (List Node)) : ScrapeResult :=
  match resp with
  | Except.error _ => ⟨address, none, source, "error"⟩
  | Except.ok html =>
    match parse_bas_response html with
    | Except.error _ => ⟨address, none, source, "error"⟩
    | Except.ok owner =>
      ⟨address, owner, source, if truthy owner then "success" else "not found"⟩

/-- `search_bas_portal`: split the address into the form payload, post it to
the portal, and turn the response into a `ScrapeResult`. -/
def search_bas_portal (net : Net) (address url source : String) : ScrapeResult :=
  portalOutcome address source (net url (splitAddress address))

/-- URL of the Clarkstown portal. -/
def clarkstownUrl : String := "https://www.townofclarkstown.org/cn/TaxSearch/index.cfm"

/-- URL of the Orangetown portal. -/
def orangetownUrl : String := "https://www.orangetown.com/departments/receiver-of-taxes/tax-bill-search/"

/-- `scrape_clarkstown`. -/
def scrape_clarkstown (net : Net) (addresses : List String) : List ScrapeResult :=
  addresses.map (fun addr => search_bas_portal net addr clarkstownUrl "Clarkstown Tax Search")

/-- `scrape_orangetown`. -/
def scrape_orangetown (net : Net) (addresses : List String) : List ScrapeResult :=
  addresses.map (fun addr => search_bas_portal net addr orangetownUrl "Orangetown Tax Search")

/-! ## Ramapo browser strategy (`scrape_ramapo`) -/

/-- The browser runtime seen by `scrape_ramapo`: whether the `playwright`
module loaded (`sync_playwright is not None`), whether
`p.chromium.launch` succeeds, and the outcome of the per-address page
interaction (`goto`/`fill`/`click`/`wait_for_selector`/`text_content`):
an exception, or the `Optional[str]` returned by `text_content`. -/
structure RamapoEnv where
  playwright : Bool
  launch : Bool
  search : String → Except Unit (Option String)

/-- Source string used by every Ramapo result. -/
def ramapoSource : String := "Ramapo Property Search"

/-- The loop body of `scrape_ramapo` for one address: any exception in the
page interaction yields `"error"`; otherwise
`status = "success" if owner else "not found"`. -/
def ramapoResolve (env : RamapoEnv) (addr : String) : ScrapeResult :=
  match env.search addr with
  | Except.error _ => ⟨addr, none, ramapoSource, "error"⟩
  | Except.ok owner =>
    ⟨addr, owner, ramapoSource, if truthy owner then "success" else "not found"⟩

/-- `scrape_ramapo`.  The second component is the trace of addresses for
which page interactions (network/browser calls) were attempted. -/
def scrape_ramapo (env : RamapoEnv) (addresses : List String) :
    List ScrapeResult × List String :=
  if !env.playwright then
    (addresses.map (fun addr => ⟨addr, none, ramapoSource, "error"⟩), [])
  else if !env.launch then
    (addresses.map (fun addr => ⟨addr, none, ramapoSource, "error"⟩), [])
  else
    (addresses.map (ramapoResolve env), addresses)

/-! ## Stony Point spreadsheet strategy (`scrape_stony_point`) -/

/-- The dataframe loaded from the assessment roll: whether the `'Address'`
and `'Owner'` columns exist (a missing column makes the corresponding
subscript raise `KeyError`), and the rows, each an `Address` cell (`none`
for `NaN`, handled by `na=False`) and an `Owner` cell. -/
structure StonyRoll where
  hasAddressCol : Bool
  hasOwnerCol : Bool
  rows : List (Option String × String)

/-- The environment of `scrape_stony_point`: either the loaded roll, or the
exception raised while downloading (`requests.get`/`raise_for_status`/file
write) or parsing (`pd.read_excel`) it. -/
structure StonyEnv where
  roll : Except Unit StonyRoll

/-- Source string used by every Stony Point result. -/
def stonySource : String := "Stony Point Assessment Roll"

/-- The body of the per-address `try` block:
`df[df['Address'].str.contains(addr, case=False, na=False)]` followed by
`match.iloc[0]['Owner']` when the match is non-empty.  A missing
`'Address'` column raises before the search; a missing `'Owner'` column
raises only when a matching row exists. -/
def stonySearch (df : StonyRoll) (addr : String) : Except Unit (Option String) :=
  if !df.hasAddressCol then Except.error ()
  else
    match df.rows.filter (fun r =>
        match r.1 with
        | some s => containsCI s addr
        | none => false) with
    | [] => Except.ok none
    | r :: _ => if !df.hasOwnerCol then Except.error () else Except.ok (some r.2)

/-- One Stony Point address once the roll has loaded: an exception in the
row search is caught, leaving `owner = None`; then
`status = "success" if owner else "not found"`. -/
def stonyResolve (df : StonyRoll) (addr : String) : ScrapeResult :=
  let owner := match stonySearch df addr with
    | Except.error _ => none
    | Except.ok o => o
  ⟨addr, owner, stonySource, if truthy owner then "success" else "not found"⟩

/-- `scrape_stony_point`: if the roll cannot be downloaded or parsed, every
address of the group reports `"error"`; otherwise each address is looked up
in turn. -/
def scrape_stony_point (env : StonyEnv) (addresses : List String) : List ScrapeResult :=
  match env.roll with
  | Except.error _ => addresses.map (fun addr => ⟨addr, none, stonySource, "error"⟩)
  | Except.ok df => addresses.map (stonyResolve df)

/-! ## HTTP retry configuration (`requests_session`)

The script configures
`Retry(total=3, backoff_factor=1, status_forcelist=[500, 502, 503, 504])`.
`attemptsMade` and `get_backoff_time` model urllib3's documented `Retry`
semantics: `total` bounds the number of RETRIES (the initial request is not
counted), a response whose status is in `status_forcelist` is retried while
retries remain, and the backoff before retry `n` (for `n ≥ 2`) is
`backoff_factor * 2^(n-1)` seconds, capped at `BACKOFF_MAX = 120`. -/

structure RetryPolicy where
  total : Nat
  backoff_factor : Nat
  status_forcelist : List Nat
  deriving DecidableEq, Repr

/-- The retry configuration installed by `requests_session`. -/
def retriesPolicy : RetryPolicy := ⟨3, 1, [500, 502, 503, 504]⟩

/-- Number of retries still allowed after which the loop stops. -/
def attemptsAux (p : RetryPolicy) (statuses : Nat → Nat) : Nat → Nat → Nat
  | 0, i => i + 1
  | fuel + 1, i =>
    if statuses i ∈ p.status_forcelist then attemptsAux p statuses fuel (i + 1)
    else i + 1

/-- Total number of HTTP requests performed for one logical call when
attempt `i` (0-based) receives status `statuses i`. -/
def attemptsMade (p : RetryPolicy) (statuses : Nat → Nat) : Nat :=
  attemptsAux p statuses p.total 0

/-- urllib3 `Retry.get_backoff_time` as a function of the number of
consecutive errored attempts so far. -/
def get_backoff_time (p : RetryPolicy) (consecutiveErrors : Nat) : Nat :=
  if consecutiveErrors ≤ 1 then 0
  else min 120 (p.backoff_factor * 2 ^ (consecutiveErrors - 1))

/-! ## Input loading (`load_incident_addresses`) -/

/-- The JSON branch of `load_incident_addresses`:
`[item.get("address", "") for item in data]`.  A record is modelled by its
`address` value, `none` when the key is absent. -/
def load_incident_addresses_json (records : List (Option String)) : List String :=
  records.map (fun r => r.getD "")

/-- The CSV branch of `load_incident_addresses`:
`df.get("address", pd.Series()).dropna().tolist()`.  A column cell is
`none` when missing (`NaN`), and `dropna` removes exactly those. -/
def load_incident_addresses_csv (column : List (Option String)) : List String :=
  column.filterMap id

/-! ## Orchestration (`main`) -/

/-- All external state `main` touches: the form-portal network, the browser
runtime, and the spreadsheet source. -/
structure Env where
  net : Net
  ramapo : RamapoEnv
  stony : StonyEnv

/-- `SCRAPER_MAP` lookup plus the call of the strategy on a group. -/
def runGroup (env : Env) (town : String) (addrs : List String) : List ScrapeResult :=
  if town == "Clarkstown" then scrape_clarkstown env.net addrs
  else if town == "Orangetown" then scrape_orangetown env.net addrs
  else if town == "Ramapo" then (scrape_ramapo env.ramapo addrs).1
  else if town == "Stony Point" then scrape_stony_point env.stony addrs
  else []

/-- The result list `main` accumulates and writes: iterate the groups in
dict order, skipping empty groups and the `"Unknown"` key, and extend with
each strategy's results. -/
def mainResults (env : Env) (addresses : List String) : List ScrapeResult :=
  (group_addresses_by_town addresses).foldl
    (fun acc kv =>
      if kv.2.isEmpty || kv.1 == "Unknown" then acc
      else acc ++ runGroup env kv.1 kv.2)
    []

/-! ## Helper lemmas: characters and case-insensitive matching -/

theorem toNat_ofNat_valid (n : Nat) (h : n < 55296) : (Char.ofNat n).toNat = n := by
  have hv : n.isValidChar := Or.inl h
  rw [Char.ofNat, dif_pos hv]
  rfl

theorem lowerChar_upperChar (c : Char) : lowerChar (upperChar c) = lowerChar c := by
  unfold lowerChar upperChar
  by_cases h : 97 ≤ c.toNat ∧ c.toNat ≤ 122
  · rw [if_pos h]
    have h1 : (Char.ofNat (c.toNat - 32)).toNat = c.toNat - 32 :=
      toNat_ofNat_valid _ (by omega)
    rw [if_pos (by omega :
      65 ≤ (Char.ofNat (c.toNat - 32)).toNat ∧ (Char.ofNat (c.toNat - 32)).toNat ≤ 90)]
    rw [if_neg (by omega : ¬(65 ≤ c.toNat ∧ c.toNat ≤ 90))]
    rw [h1]
    have h2 : c.toNat - 32 + 32 = c.toNat := by omega
    rw [h2, Char.ofNat_toNat]
  · rw [if_neg h]

theorem map_lowerChar_upperChar (l : List Char) :
    (l.map upperChar).map lowerChar = l.map lowerChar := by
  rw [List.map_map]
  exact List.map_congr_left (fun c _ => lowerChar_upperChar c)

theorem containsCI_upperStr (a t : String) : containsCI (upperStr a) t = containsCI a t := by
  show subMatch (t.data.map lowerChar) ((a.data.map upperChar).map lowerChar) = _
  rw [map_lowerChar_upperChar]
  rfl

theorem detect_town_upperStr (a : String) : detect_town (upperStr a) = detect_town a := by
  unfold detect_town
  have h : (fun town => containsCI (upperStr a) town) = fun town => containsCI a town :=
    funext (containsCI_upperStr a)
  rw [h]

theorem find?_decomp {α : Type} (p : α → Bool) :
    ∀ (l : List α) (a : α), l.find? p = some a →
      ∃ l₁ l₂, l = l₁ ++ a :: l₂ ∧ (∀ x ∈ l₁, p x = false) ∧ p a = true
  | [], a, h => by simp [List.find?] at h
  | b :: l, a, h => by
    by_cases hb : p b
    · refine ⟨[], l, ?_, by simp, ?_⟩
      · simp only [List.find?_cons_of_pos _ hb, Option.some.injEq] at h
        rw [h]
        rfl
      · simp only [List.find?_cons_of_pos _ hb, Option.some.injEq] at h
        rw [← h]
        exact hb
    · rw [List.find?_cons_of_neg _ (by simpa using hb)] at h
      obtain ⟨l₁, l₂, rfl, h1, h2⟩ := find?_decomp p l a h
      refine ⟨b :: l₁, l₂, rfl, ?_, h2⟩
      intro x hx
      rcases List.mem_cons.mp hx with rfl | hx
      · simpa using hb
      · exact h1 x hx

/-! ## Helper lemmas: grouping -/

/-- The keys of the grouped dict, in insertion order. -/
def KEYS : List String := TOWNS ++ ["Unknown"]

/-- The value the grouped dict ends up holding at key `k`. -/
def townGroup (k : String) (addresses : List String) : List String :=
  addresses.filter (fun a => bucketOf a == k)

theorem addToGroup_map (ks : List String) (f : String → List String) (key addr : String)
    (hnd : ks.Nodup) :
    addToGroup (ks.map (fun k => (k, f k))) key addr =
      ks.map (fun k => (k, f k ++ if k == key then [addr] else [])) := by
  induction ks with
  | nil => rfl
  | cons k ks ih =>
    rw [List.map_cons, List.map_cons, addToGroup]
    by_cases hk : (k == key) = true
    · have hkey : k = key := eq_of_beq hk
      rw [if_pos hk, if_pos hk]
      congr 1
      have : ks.map (fun x => (x, f x ++ if x == key then [addr] else [])) =
          ks.map (fun x => (x, f x)) := by
        apply List.map_congr_left
        intro x hx
        have hxk : ¬(x == key) = true := by
          simp only [beq_iff_eq]
          intro hxe
          have hkx : k = x := hkey.trans hxe.symm
          exact (List.nodup_cons.mp hnd).1 (hkx ▸ hx)
        rw [if_neg hxk, List.append_nil]
      rw [this]
    · rw [if_neg hk, if_neg hk]
      congr 1
      · rw [List.append_nil]
      · exact ih (List.nodup_cons.mp hnd).2

theorem group_foldl (ks : List String) (hnd : ks.Nodup) :
    ∀ (l : List String) (f : String → List String),
      l.foldl (fun g addr => addToGroup g (bucketOf addr) addr) (ks.map (fun k => (k, f k))) =
        ks.map (fun k => (k, f k ++ l.filter (fun a => bucketOf a == k)))
  | [], f => by
    simp only [List.foldl_nil, List.filter_nil, List.append_nil]
  | addr :: l, f => by
    rw [List.foldl_cons, addToGroup_map ks f (bucketOf addr) addr hnd,
      group_foldl ks hnd l (fun k => f k ++ if k == bucketOf addr then [addr] else [])]
    apply List.map_congr_left
    intro k _
    simp only [List.filter_cons]
    by_cases hb : (bucketOf addr == k) = true
    · have hkb : (k == bucketOf addr) = true := by
        simp only [beq_iff_eq] at hb ⊢
        exact hb.symm
      rw [if_pos hkb, if_pos hb, List.append_assoc]
      rfl
    · have hkb : ¬(k == bucketOf addr) = true := by
        simp only [beq_iff_eq] at hb ⊢
        exact fun h => hb h.symm
      rw [if_neg hkb, if_neg hb, List.append_nil]

theorem group_eq_filter (l : List String) :
    group_addresses_by_town l = KEYS.map (fun k => (k, townGroup k l)) := by
  have h := group_foldl KEYS (by decide) l (fun _ => [])
  simp only [List.nil_append] at h
  exact h

theorem bucketOf_mem_KEYS (a : String) : bucketOf a ∈ KEYS := by
  unfold bucketOf
  cases h : detect_town a with
  | none => simp [KEYS, TOWNS]
  | some t =>
    have ht : t ∈ TOWNS := List.mem_of_find?_eq_some h
    simp only [Option.getD_some, KEYS]
    exact List.mem_append_left _ ht

theorem filter_buckets_perm :
    ∀ (ks : List String), ks.Nodup → ∀ (l : List String), (∀ a ∈ l, bucketOf a ∈ ks) →
      ((ks.map (fun k => l.filter (fun a => bucketOf a == k))).flatten).Perm l
  | [], _, l, hl => by
    have hl' : l = [] :=
      List.eq_nil_iff_forall_not_mem.mpr (fun a ha => by simpa using hl a ha)
    simp [hl']
  | k :: ks, hnd, l, hl => by
    obtain ⟨hk, hnd'⟩ := List.nodup_cons.mp hnd
    rw [List.map_cons, List.flatten_cons]
    have hrest : ks.map (fun x => l.filter (fun a => bucketOf a == x)) =
        ks.map (fun x =>
          (l.filter (fun a => !(bucketOf a == k))).filter (fun a => bucketOf a == x)) := by
      apply List.map_congr_left
      intro x hx
      rw [List.filter_filter]
      apply List.filter_congr
      intro a _
      by_cases hb : (bucketOf a == x) = true
      · have hbx : bucketOf a = x := eq_of_beq hb
        have hne : bucketOf a ≠ k := by
          intro he
          exact hk ((hbx.symm.trans he) ▸ hx)
        have hbk : (bucketOf a == k) = false := beq_eq_false_iff_ne.mpr hne
        rw [hb, hbk]
        rfl
      · rw [Bool.not_eq_true] at hb
        rw [hb]
        rfl
    have hmem : ∀ a ∈ l.filter (fun a => !(bucketOf a == k)), bucketOf a ∈ ks := by
      intro a ha
      obtain ⟨hal, hab⟩ := List.mem_filter.mp ha
      rcases List.mem_cons.mp (hl a hal) with he | he
      · exfalso
        simp only [he, beq_self_eq_true, Bool.not_true] at hab
        exact Bool.false_ne_true hab
      · exact he
    have ihp := filter_buckets_perm ks hnd' (l.filter (fun a => !(bucketOf a == k))) hmem
    rw [hrest]
    exact ((ihp.append_left _).trans (List.filter_append_perm _ l))

theorem group_join_perm (l : List String) :
    (((group_addresses_by_town l).map Prod.snd).flatten).Perm l := by
  rw [group_eq_filter, List.map_map]
  have h : (Prod.snd ∘ fun k => (k, townGroup k l)) =
      fun k => l.filter (fun a => bucketOf a == k) := rfl
  rw [h]
  exact filter_buckets_perm KEYS (by decide) l (fun a _ => bucketOf_mem_KEYS a)

/-! ## Helper lemmas: BAS response parsing -/

theorem parse_skip (pre rest : List Node) (h : ∀ n ∈ pre, nodeLabel n = false) :
    parse_bas_response (pre ++ rest) = parse_bas_response rest := by
  induction pre with
  | nil => rfl
  | cons n pre ih =>
    have hn := h n (List.mem_cons_self n pre)
    have h' : ∀ m ∈ pre, nodeLabel m = false := fun m hm => h m (List.mem_cons_of_mem n hm)
    cases n with
    | text s =>
      have hs : ownerLabel s = false := hn
      rw [List.cons_append]
      show (if ownerLabel s then Except.error () else parse_bas_response (pre ++ rest)) = _
      rw [hs]
      simpa using ih h'
    | row cells =>
      have hc : cells.any ownerLabel = false := hn
      rw [List.cons_append]
      show (if cells.any ownerLabel then _ else parse_bas_response (pre ++ rest)) = _
      rw [hc]
      simpa using ih h'

theorem parse_no_label (html : List Node) (h : ∀ n ∈ html, nodeLabel n = false) :
    parse_bas_response html = Except.ok none := by
  have hskip := parse_skip html [] h
  rw [List.append_nil] at hskip
  exact hskip

theorem parse_label_row (pre rest : List Node) (cells : List String)
    (hpre : ∀ n ∈ pre, nodeLabel n = false) (hlabel : cells.any ownerLabel = true)
    (hlen : 2 ≤ cells.length) :
    parse_bas_response (pre ++ Node.row cells :: rest) =
      Except.ok (some (stripStr (cells.getD 1 ""))) := by
  rw [parse_skip pre _ hpre]
  show (if cells.any ownerLabel then
      if 2 ≤ cells.length then Except.ok (some (stripStr (cells.getD 1 "")))
      else Except.ok none
    else parse_bas_response rest) = _
  rw [hlabel, if_pos rfl, if_pos hlen]

theorem parse_ok_none_cases :
    ∀ (html : List Node), parse_bas_response html = Except.ok none →
      (∀ n ∈ html, nodeLabel n = false) ∨
      ∃ pre cells rest, html = pre ++ Node.row cells :: rest ∧
        (∀ n ∈ pre, nodeLabel n = false) ∧ cells.any ownerLabel = true ∧ cells.length < 2
  | [], _ => Or.inl (by simp)
  | Node.text s :: rest, h => by
    by_cases hs : ownerLabel s = true
    · exfalso
      simp [parse_bas_response, hs] at h
    · have hs' : ownerLabel s = false := by simpa using hs
      have h' : parse_bas_response rest = Except.ok none := by
        have hu : parse_bas_response (Node.text s :: rest) = parse_bas_response rest := by
          show (if ownerLabel s then Except.error () else parse_bas_response rest) = _
          rw [hs']
          simp
        rw [← hu]
        exact h
      rcases parse_ok_none_cases rest h' with hall | ⟨pre, cells, r2, he, hp, hl, hlen⟩
      · left
        intro n hn
        rcases List.mem_cons.mp hn with rfl | hn
        · exact hs'
        · exact hall n hn
      · right
        refine ⟨Node.text s :: pre, cells, r2, by rw [he, List.cons_append], ?_, hl, hlen⟩
        intro n hn
        rcases List.mem_cons.mp hn with rfl | hn
        · exact hs'
        · exact hp n hn
  | Node.row cells :: rest, h => by
    by_cases hc : cells.any ownerLabel = true
    · by_cases hlen : 2 ≤ cells.length
      · exfalso
        simp [parse_bas_response, hc, hlen] at h
      · right
        exact ⟨[], cells, rest, by simp, by simp, hc, by omega⟩
    · have hc' : cells.any ownerLabel = false := by simpa using hc
      have h' : parse_bas_response rest = Except.ok none := by
        have hu : parse_bas_response (Node.row cells :: rest) = parse_bas_response rest := by
          show (if cells.any ownerLabel then _ else parse_bas_response rest) = _
          rw [hc']
          simp
        rw [← hu]
        exact h
      rcases parse_ok_none_cases rest h' with hall | ⟨pre, cells2, r2, he, hp, hl, hlen⟩
      · left
        intro n hn
        rcases List.mem_cons.mp hn with rfl | hn
        · exact hc'
        · exact hall n hn
      · right
        refine ⟨Node.row cells :: pre, cells2, r2, by rw [he, List.cons_append], ?_, hl, hlen⟩
        intro n hn
        rcases List.mem_cons.mp hn with rfl | hn
        · exact hc'
        · exact hp n hn

/-! ## Helper lemmas: strategies and orchestration -/

theorem truthy_iff (o : Option String) : truthy o = true ↔ ∃ s, o = some s ∧ s ≠ "" := by
  cases o with
  | none => simp [truthy]
  | some s => simp [truthy]

theorem status_rule (o : Option String) :
    ((if truthy o then "success" else "not found") = "success" ↔
      ∃ s, o = some s ∧ s ≠ "") ∧
    ((if truthy o then "success" else "not found") = "success" ∨
     (if truthy o then "success" else "not found") = "not found" ∨
     (if truthy o then "success" else "not found") = "error") := by
  by_cases h : truthy o = true
  · rw [if_pos h]
    exact ⟨⟨fun _ => (truthy_iff o).mp h, fun _ => rfl⟩, Or.inl rfl⟩
  · rw [if_neg h]
    refine ⟨⟨fun he => absurd he (by decide), fun ⟨s, hs, hne⟩ => ?_⟩, Or.inr (Or.inl rfl)⟩
    exact absurd ((truthy_iff o).mpr ⟨s, hs, hne⟩) h

theorem portalOutcome_address (a s : String) (resp : Except Unit (List Node)) :
    (portalOutcome a s resp).address = a := by
  cases resp with
  | error e => rfl
  | ok html =>
    simp only [portalOutcome]
    rcases hp : parse_bas_response html with e | owner <;> rfl

theorem search_bas_portal_address (net : Net) (a u s : String) :
    (search_bas_portal net a u s).address = a :=
  portalOutcome_address a s (net u (splitAddress a))

theorem scrape_clarkstown_addresses (net : Net) (l : List String) :
    (scrape_clarkstown net l).map ScrapeResult.address = l := by
  unfold scrape_clarkstown
  rw [List.map_map]
  have h : (ScrapeResult.address ∘
      fun addr => search_bas_portal net addr clarkstownUrl "Clarkstown Tax Search") = id :=
    funext (fun a => search_bas_portal_address net a _ _)
  rw [h, List.map_id]

theorem scrape_orangetown_addresses (net : Net) (l : List String) :
    (scrape_orangetown net l).map ScrapeResult.address = l := by
  unfold scrape_orangetown
  rw [List.map_map]
  have h : (ScrapeResult.address ∘
      fun addr => search_bas_portal net addr orangetownUrl "Orangetown Tax Search") = id :=
    funext (fun a => search_bas_portal_address net a _ _)
  rw [h, List.map_id]

theorem ramapoResolve_address (env : RamapoEnv) (a : String) :
    (ramapoResolve env a).address = a := by
  simp only [ramapoResolve]
  rcases h : env.search a with e | owner <;> rfl

theorem scrape_ramapo_addresses (env : RamapoEnv) (l : List String) :
    (scrape_ramapo env l).1.map ScrapeResult.address = l := by
  unfold scrape_ramapo
  split_ifs
  · rw [List.map_map]
    exact List.map_id l
  · rw [List.map_map]
    exact List.map_id l
  · rw [List.map_map]
    have h : (ScrapeResult.address ∘ ramapoResolve env) = id :=
      funext (fun a => ramapoResolve_address env a)
    rw [h, List.map_id]

theorem stonyResolve_address (df : StonyRoll) (a : String) :
    (stonyResolve df a).address = a := rfl

theorem scrape_stony_point_addresses (env : StonyEnv) (l : List String) :
    (scrape_stony_point env l).map ScrapeResult.address = l := by
  unfold scrape_stony_point
  cases env.roll with
  | error e =>
    rw [List.map_map]
    exact List.map_id l
  | ok df =>
    rw [List.map_map]
    have h : (ScrapeResult.address ∘ stonyResolve df) = id :=
      funext (fun a => stonyResolve_address df a)
    rw [h, List.map_id]

theorem scrape_ramapo_nil (env : RamapoEnv) : scrape_ramapo env [] = ([], []) := by
  unfold scrape_ramapo
  split_ifs <;> rfl

theorem scrape_stony_point_nil (env : StonyEnv) : scrape_stony_point env [] = [] := by
  unfold scrape_stony_point
  cases env.roll <;> rfl

theorem runGroup_nil (env : Env) (t : String) : runGroup env t [] = [] := by
  unfold runGroup
  split_ifs <;>
    simp [scrape_clarkstown, scrape_orangetown, scrape_ramapo_nil, scrape_stony_point_nil]

theorem runGroup_eq_clarkstown (env : Env) (g : List String) :
    runGroup env "Clarkstown" g = scrape_clarkstown env.net g := rfl

theorem runGroup_eq_orangetown (env : Env) (g : List String) :
    runGroup env "Orangetown" g = scrape_orangetown env.net g := rfl

theorem runGroup_eq_ramapo (env : Env) (g : List String) :
    runGroup env "Ramapo" g = (scrape_ramapo env.ramapo g).1 := rfl

theorem runGroup_eq_stony (env : Env) (g : List String) :
    runGroup env "Stony Point" g = scrape_stony_point env.stony g := rfl

theorem foldl_groups (env : Env) :
    ∀ (gs : List (String × List String)) (acc : List ScrapeResult),
      gs.foldl (fun acc kv =>
          if kv.2.isEmpty || kv.1 == "Unknown" then acc
          else acc ++ runGroup env kv.1 kv.2) acc =
        acc ++ (gs.map (fun kv =>
          if kv.2.isEmpty || kv.1 == "Unknown" then [] else runGroup env kv.1 kv.2)).flatten
  | [], acc => by simp
  | kv :: gs, acc => by
    simp only [List.foldl_cons, List.map_cons, List.flatten_cons]
    by_cases hc : (kv.2.isEmpty || (kv.1 == "Unknown")) = true
    · rw [if_pos hc, if_pos hc, foldl_groups env gs acc, List.nil_append]
    · rw [if_neg hc, if_neg hc, foldl_groups env gs (acc ++ runGroup env kv.1 kv.2),
        List.append_assoc]

theorem mainResults_eq (env : Env) (l : List String) :
    mainResults env l =
      scrape_clarkstown env.net (townGroup "Clarkstown" l) ++
      scrape_orangetown env.net (townGroup "Orangetown" l) ++
      (scrape_ramapo env.ramapo (townGroup "Ramapo" l)).1 ++
      scrape_stony_point env.stony (townGroup "Stony Point" l) := by
  unfold mainResults
  rw [group_eq_filter, foldl_groups env _ [], List.nil_append, List.map_map]
  have hF : ∀ t : String, (t == "Unknown") = false →
      (if (townGroup t l).isEmpty || (t == "Unknown") then ([] : List ScrapeResult)
        else runGroup env t (townGroup t l)) = runGroup env t (townGroup t l) := by
    intro t ht
    rw [ht, Bool.or_false]
    by_cases hg : (townGroup t l).isEmpty = true
    · rw [if_pos hg, List.isEmpty_iff.mp hg, runGroup_nil]
    · rw [if_neg (by simpa using hg)]
  have hU : ((townGroup "Unknown" l).isEmpty || (("Unknown" : String) == "Unknown")) = true := by
    simp
  simp only [KEYS, TOWNS, List.cons_append, List.nil_append, List.map_cons, List.map_nil,
    List.flatten_cons, List.flatten_nil, Function.comp]
  rw [hF "Clarkstown" (by decide), hF "Orangetown" (by decide), hF "Ramapo" (by decide),
    hF "Stony Point" (by decide), if_pos hU, List.append_nil]
  rw [runGroup_eq_clarkstown, runGroup_eq_orangetown, runGroup_eq_ramapo, runGroup_eq_stony]
  simp [List.append_assoc]

/-- The result-contract of the spec, for one `ScrapeResult`: success exactly
when an owner name is present and non-empty, and a three-valued status. -/
def statusInvariant (r : ScrapeResult) : Prop :=
  (r.status = "success" ↔ ∃ s, r.owner_name = some s ∧ s ≠ "") ∧
  (r.status = "success" ∨ r.status = "not found" ∨ r.status = "error")

theorem statusInvariant_outcome (addr src : String) (o : Option String) :
    statusInvariant ⟨addr, o, src, if truthy o then "success" else "not found"⟩ := by
  unfold statusInvariant
  exact status_rule o

theorem statusInvariant_error (addr src : String) :
    statusInvariant ⟨addr, none, src, "error"⟩ := by
  unfold statusInvariant
  constructor
  · constructor
    · intro he
      have he' : ("error" : String) = "success" := he
      exact absurd he' (by decide)
    · rintro ⟨s, hs, _⟩
      exact Option.noConfusion hs
  · exact Or.inr (Or.inr rfl)

theorem portalOutcome_invariant (addr src : String) (resp : Except Unit (List Node)) :
    statusInvariant (portalOutcome addr src resp) := by
  cases resp with
  | error e => exact statusInvariant_error addr src
  | ok html =>
    simp only [portalOutcome]
    rcases parse_bas_response html with e | owner
    · exact statusInvariant_error addr src
    · exact statusInvariant_outcome addr src owner

theorem ramapoResolve_invariant (env : RamapoEnv) (addr : String) :
    statusInvariant (ramapoResolve env addr) := by
  simp only [ramapoResolve]
  rcases env.search addr with e | owner
  · exact statusInvariant_error addr ramapoSource
  · exact statusInvariant_outcome addr ramapoSource owner

theorem stonyResolve_invariant (df : StonyRoll) (addr : String) :
    statusInvariant (stonyResolve df addr) :=
  statusInvariant_outcome addr stonySource _

/-! ## The claims -/

/-- Claim C1: for every `ScrapeResult` produced by any strategy
(`search_bas_portal`, `scrape_ramapo`, `scrape_stony_point`),
`status = "success"` if and only if `owner_name` is present and non-empty,
and the status is always exactly one of the three enumerated values
(`"success"`, `"not found"` — the spec's `not_found` — and `"error"`). -/
theorem C1_status_taxonomy (net : Net) (renv : RamapoEnv) (senv : StonyEnv)
    (address url source : String) (addrs : List String) (r : ScrapeResult)
    (h : r = search_bas_portal net address url source ∨
         r ∈ (scrape_ramapo renv addrs).1 ∨ r ∈ scrape_stony_point senv addrs) :
    (r.status = "success" ↔ ∃ s, r.owner_name = some s ∧ s ≠ "") ∧
    (r.status = "success" ∨ r.status = "not found" ∨ r.status = "error") := by
  have hinv : statusInvariant r := by
    rcases h with h | h | h
    · rw [h]
      exact portalOutcome_invariant address source _
    · simp only [scrape_ramapo] at h
      split_ifs at h with h1 h2
      · obtain ⟨a, _, rfl⟩ := List.mem_map.mp h
        exact statusInvariant_error a ramapoSource
      · obtain ⟨a, _, rfl⟩ := List.mem_map.mp h
        exact statusInvariant_error a ramapoSource
      · obtain ⟨a, _, rfl⟩ := List.mem_map.mp h
        exact ramapoResolve_invariant renv a
    · unfold scrape_stony_point at h
      rcases hroll : senv.roll with e | df
      · rw [hroll] at h
        obtain ⟨a, _, rfl⟩ := List.mem_map.mp h
        exact statusInvariant_error a stonySource
      · rw [hroll] at h
        obtain ⟨a, _, rfl⟩ := List.mem_map.mp h
        exact stonyResolve_invariant df a
  exact hinv

/-- Witness for C1 at a concrete input: the portal strategy under a failing
network produces a result satisfying the contract. -/
theorem C1_status_taxonomy_witness :
    ((search_bas_portal (fun _ _ => Except.error ()) "1 Main St" "u" "s").status = "success" ↔
      ∃ s, (search_bas_portal (fun _ _ => Except.error ()) "1 Main St" "u" "s").owner_name =
        some s ∧ s ≠ "") ∧
    ((search_bas_portal (fun _ _ => Except.error ()) "1 Main St" "u" "s").status = "success" ∨
     (search_bas_portal (fun _ _ => Except.error ()) "1 Main St" "u" "s").status = "not found" ∨
     (search_bas_portal (fun _ _ => Except.error ()) "1 Main St" "u" "s").status = "error") :=
  C1_status_taxonomy (fun _ _ => Except.error ()) ⟨false, false, fun _ => Except.error ()⟩
    ⟨Except.error ()⟩ "1 Main St" "u" "s" [] _ (Or.inl rfl)

/-- Claim C5: `detect_town` is case-insensitive
(`classify(a) = classify(a.upper())`), tests the enumerated towns for
case-insensitive substring containment in the fixed list order, returns the
first match, and returns `none` exactly when no town name occurs. -/
theorem C5_detect_town_spec (a : String) :
    detect_town a = detect_town (upperStr a) ∧
    (detect_town a = none ↔ ∀ t ∈ TOWNS, containsCI a t = false) ∧
    (∀ t, detect_town a = some t →
      ∃ pre post, TOWNS = pre ++ t :: post ∧ (∀ u ∈ pre, containsCI a u = false) ∧
        containsCI a t = true) := by
  refine ⟨(detect_town_upperStr a).symm, ?_, ?_⟩
  · unfold detect_town
    rw [List.find?_eq_none]
    constructor
    · intro h t ht
      simpa using h t ht
    · intro h t ht
      simp [h t ht]
  · intro t h
    exact find?_decomp _ TOWNS t h

/-- Witness for C5 at a concrete input: the Clarkstown address of the spec
scenario is classified as Clarkstown, the first (and only) matching town. -/
theorem C5_detect_town_spec_witness :
    ∃ pre post, TOWNS = pre ++ "Clarkstown" :: post ∧
      (∀ u ∈ pre, containsCI "123 Main St, Clarkstown, NY" u = false) ∧
      containsCI "123 Main St, Clarkstown, NY" "Clarkstown" = true :=
  (C5_detect_town_spec "123 Main St, Clarkstown, NY").2.2 "Clarkstown" (by decide)

/-- A fully failing environment: network down, browser unavailable,
spreadsheet unreachable. -/
def offlineEnv : Env :=
  ⟨fun _ _ => Except.error (), ⟨false, false, fun _ => Except.error ()⟩, ⟨Except.error ()⟩⟩

/-- An address matching no town is never among the addresses of the output
of `main`. -/
theorem unknown_not_in_main (env : Env) (l : List String) (a : String)
    (hnone : detect_town a = none) :
    a ∉ (mainResults env l).map ScrapeResult.address := by
  intro hmem
  have hb : bucketOf a = "Unknown" := by
    unfold bucketOf
    rw [hnone]
    rfl
  rw [mainResults_eq, List.map_append, List.map_append, List.map_append,
    scrape_clarkstown_addresses, scrape_orangetown_addresses, scrape_ramapo_addresses,
    scrape_stony_point_addresses] at hmem
  have hcontra : ∀ t : String, a ∈ townGroup t l → bucketOf a = t :=
    fun t h => eq_of_beq (List.mem_filter.mp h).2
  rcases List.mem_append.mp hmem with hmem' | hS
  · rcases List.mem_append.mp hmem' with hmem'' | hR
    · rcases List.mem_append.mp hmem'' with hC | hO
      · exact absurd (hb.symm.trans (hcontra _ hC)) (by decide)
      · exact absurd (hb.symm.trans (hcontra _ hO)) (by decide)
    · exact absurd (hb.symm.trans (hcontra _ hR)) (by decide)
  · exact absurd (hb.symm.trans (hcontra _ hS)) (by decide)

/-- Claim C4: `group_addresses_by_town` partitions its input — the
concatenation of the group values is a permutation of the input, each group
preserves input order (is a sublist of the input), an unmatched address is
only ever in the `"Unknown"` group, and unmatched addresses are never
dispatched to a strategy and never appear in the output of `main`. -/
theorem C4_grouping_partition (addresses : List String) (env : Env) :
    (((group_addresses_by_town addresses).map Prod.snd).flatten).Perm addresses ∧
    (∀ k v, (k, v) ∈ group_addresses_by_town addresses → v.Sublist addresses) ∧
    (∀ a ∈ addresses, detect_town a = none →
      ∀ k v, (k, v) ∈ group_addresses_by_town addresses → a ∈ v → k = "Unknown") ∧
    (∀ a, detect_town a = none →
      a ∉ (mainResults env addresses).map ScrapeResult.address) := by
  refine ⟨group_join_perm addresses, ?_, ?_, ?_⟩
  · intro k v hkv
    rw [group_eq_filter] at hkv
    obtain ⟨k', _, he⟩ := List.mem_map.mp hkv
    obtain ⟨rfl, rfl⟩ := Prod.mk.injEq .. |>.mp he
    exact List.filter_sublist addresses
  · intro a _ hnone k v hkv hav
    rw [group_eq_filter] at hkv
    obtain ⟨k', _, he⟩ := List.mem_map.mp hkv
    obtain ⟨rfl, rfl⟩ := Prod.mk.injEq .. |>.mp he
    have hb : bucketOf a = k' := eq_of_beq (List.mem_filter.mp hav).2
    rw [← hb]
    unfold bucketOf
    rw [hnone]
    rfl
  · intro a hnone
    exact unknown_not_in_main env addresses a hnone

/-- Witness for C4 at the spec scenario input: the unmatched address never
appears among the output addresses. -/
theorem C4_grouping_partition_witness :
    "45 Elm Rd, Nowhere" ∉
      (mainResults offlineEnv ["123 Main St, Clarkstown, NY", "45 Elm Rd, Nowhere"]).map
        ScrapeResult.address :=
  (C4_grouping_partition ["123 Main St, Clarkstown, NY", "45 Elm Rd, Nowhere"] offlineEnv).2.2.2
    "45 Elm Rd, Nowhere" (by decide)

/-- Claim C6: if the headless browser runtime is unavailable — the
playwright import failed, or the browser cannot be launched — every address
in the Ramapo group yields `status = "error"` with `owner_name = none`, and
no page interactions (network/browser calls) are attempted for the group
(the trace of attempted page interactions is empty). -/
theorem C6_ramapo_unavailable (env : RamapoEnv) (addresses : List String)
    (h : env.playwright = false ∨ env.launch = false) :
    scrape_ramapo env addresses =
      (addresses.map (fun addr => ⟨addr, none, ramapoSource, "error"⟩), []) := by
  rcases h with h | h
  · simp [scrape_ramapo, h]
  · cases hpw : env.playwright with
    | false => simp [scrape_ramapo, hpw]
    | true => simp [scrape_ramapo, hpw, h]

/-- Witness for C6 at a concrete input: with the playwright import missing,
the single Ramapo address errors and no page interaction is traced. -/
theorem C6_ramapo_unavailable_witness :
    scrape_ramapo ⟨false, true, fun _ => Except.ok (some "X")⟩ ["9 Ramapo Way"] =
      ([⟨"9 Ramapo Way", none, ramapoSource, "error"⟩], []) :=
  C6_ramapo_unavailable ⟨false, true, fun _ => Except.ok (some "X")⟩ ["9 Ramapo Way"]
    (Or.inl rfl)

/-- Claim C7: if the Stony Point spreadsheet cannot be downloaded or parsed,
every address routed to that jurisdiction yields `status = "error"`, and the
run still terminates normally, producing the output artifact with the other
jurisdictions' results unchanged. -/
theorem C7_stony_failure (env : Env) (addresses : List String)
    (h : env.stony.roll = Except.error ()) :
    scrape_stony_point env.stony (townGroup "Stony Point" addresses) =
      (townGroup "Stony Point" addresses).map
        (fun addr => ⟨addr, none, stonySource, "error"⟩) ∧
    mainResults env addresses =
      scrape_clarkstown env.net (townGroup "Clarkstown" addresses) ++
      scrape_orangetown env.net (townGroup "Orangetown" addresses) ++
      (scrape_ramapo env.ramapo (townGroup "Ramapo" addresses)).1 ++
      (townGroup "Stony Point" addresses).map
        (fun addr => ⟨addr, none, stonySource, "error"⟩) := by
  have hsp : ∀ l : List String, scrape_stony_point env.stony l =
      l.map (fun addr => ⟨addr, none, stonySource, "error"⟩) := by
    intro l
    unfold scrape_stony_point
    rw [h]
  refine ⟨hsp _, ?_⟩
  rw [mainResults_eq, hsp]

/-- Witness for C7 at a concrete input: spreadsheet download fails, the
Stony Point address errors, and the output still holds the Clarkstown
result. -/
theorem C7_stony_failure_witness :
    scrape_stony_point offlineEnv.stony
        (townGroup "Stony Point" ["123 Main St, Clarkstown, NY", "7 Stony Point Blvd"]) =
      (townGroup "Stony Point" ["123 Main St, Clarkstown, NY", "7 Stony Point Blvd"]).map
        (fun addr => ⟨addr, none, stonySource, "error"⟩) ∧
    mainResults offlineEnv ["123 Main St, Clarkstown, NY", "7 Stony Point Blvd"] =
      scrape_clarkstown offlineEnv.net
        (townGroup "Clarkstown" ["123 Main St, Clarkstown, NY", "7 Stony Point Blvd"]) ++
      scrape_orangetown offlineEnv.net
        (townGroup "Orangetown" ["123 Main St, Clarkstown, NY", "7 Stony Point Blvd"]) ++
      (scrape_ramapo offlineEnv.ramapo
        (townGroup "Ramapo" ["123 Main St, Clarkstown, NY", "7 Stony Point Blvd"])).1 ++
      (townGroup "Stony Point" ["123 Main St, Clarkstown, NY", "7 Stony Point Blvd"]).map
        (fun addr => ⟨addr, none, stonySource, "error"⟩) :=
  C7_stony_failure offlineEnv ["123 Main St, Clarkstown, NY", "7 Stony Point Blvd"] rfl

/-- Claim C9: once the Stony Point spreadsheet has loaded, an exception in
the per-address row search (for example a missing Address or Owner column)
is caught for that address alone and produces `owner_name = none` with
`status = "not found"` — not `"error"` — while every address of the group is
still processed (one result per address, in order). -/
theorem C9_stony_row_exception (env : StonyEnv) (df : StonyRoll) (addrs : List String)
    (addr : String) (hdf : env.roll = Except.ok df)
    (herr : stonySearch df addr = Except.error ()) :
    scrape_stony_point env addrs = addrs.map (stonyResolve df) ∧
    stonyResolve df addr = ⟨addr, none, stonySource, "not found"⟩ := by
  constructor
  · unfold scrape_stony_point
    rw [hdf]
  · unfold stonyResolve
    rw [herr]
    rfl

/-- Witness for C9 at a concrete input: a roll with no Address column makes
the row search raise; the address still gets a `"not found"` result. -/
theorem C9_stony_row_exception_witness :
    scrape_stony_point ⟨Except.ok ⟨false, true, []⟩⟩ ["7 Stony Point Blvd"] =
      ["7 Stony Point Blvd"].map (stonyResolve ⟨false, true, []⟩) ∧
    stonyResolve ⟨false, true, []⟩ "7 Stony Point Blvd" =
      ⟨"7 Stony Point Blvd", none, stonySource, "not found"⟩ :=
  C9_stony_row_exception ⟨Except.ok ⟨false, true, []⟩⟩ ⟨false, true, []⟩ ["7 Stony Point Blvd"]
    "7 Stony Point Blvd" rfl rfl

/-- Counterexample to claim C2 as stated: the response
`<tr><td>Owner Name</td><td></td></tr>` satisfies the claim's premise (a row
whose first cell matches the label, with an adjacent second cell), yet the
code yields `status = "not found"` (with `owner_name = some ""`), not
`status = "success"`. -/
theorem C2_counterexample :
    (search_bas_portal (fun _ _ => Except.ok [Node.row ["Owner Name", ""]])
        "1 Main St" clarkstownUrl "Clarkstown Tax Search").status ≠ "success" ∧
    (search_bas_portal (fun _ _ => Except.ok [Node.row ["Owner Name", ""]])
        "1 Main St" clarkstownUrl "Clarkstown Tax Search").status = "not found" ∧
    (search_bas_portal (fun _ _ => Except.ok [Node.row ["Owner Name", ""]])
        "1 Main St" clarkstownUrl "Clarkstown Tax Search").owner_name = some "" := by
  refine ⟨by decide, by decide, by decide⟩

/-- Claim C2 amended: if the response HTML's first owner-name match lies in
a table row with an adjacent second cell, the result's owner name is that
cell's stripped text, and the status is `"success"` exactly when that text
is non-empty (`"not found"` when it strips to the empty string); if no
owner-name label occurs in the HTML, the result is `owner_name = none` with
`status = "not found"`. -/
theorem C2_amended_portal (net : Net) (addr url src : String) :
    (∀ pre rest c0 c1 cs,
      net url (splitAddress addr) = Except.ok (pre ++ Node.row (c0 :: c1 :: cs) :: rest) →
      (∀ n ∈ pre, nodeLabel n = false) → ownerLabel c0 = true →
      (search_bas_portal net addr url src).owner_name = some (stripStr c1) ∧
      (search_bas_portal net addr url src).status =
        (if stripStr c1 = "" then "not found" else "success")) ∧
    (∀ html, net url (splitAddress addr) = Except.ok html →
      (∀ n ∈ html, nodeLabel n = false) →
      search_bas_portal net addr url src = ⟨addr, none, src, "not found"⟩) := by
  constructor
  · intro pre rest c0 c1 cs hnet hpre hc0
    unfold search_bas_portal
    rw [hnet]
    simp only [portalOutcome]
    rw [parse_label_row pre rest (c0 :: c1 :: cs) hpre (by simp [hc0]) (by simp)]
    refine ⟨rfl, ?_⟩
    show (if truthy (some (stripStr c1)) then "success" else "not found") = _
    by_cases hc : stripStr c1 = ""
    · rw [if_pos hc, hc]
      rfl
    · have ht : truthy (some (stripStr c1)) = true := by
        simp [truthy, hc]
      rw [if_pos ht, if_neg hc]
  · intro html hnet hall
    unfold search_bas_portal
    rw [hnet]
    simp only [portalOutcome]
    rw [parse_no_label html hall]
    rfl

/-- Witness for the amended C2 at the spec scenario: the row
`<tr><td>Owner Name</td><td>J. Smith</td></tr>` yields owner `J. Smith`
with `status = "success"`. -/
theorem C2_amended_portal_witness :
    (search_bas_portal (fun _ _ => Except.ok [Node.row ["Owner Name", "J. Smith"]])
        "1 Main St" "u" "s").owner_name = some "J. Smith" ∧
    (search_bas_portal (fun _ _ => Except.ok [Node.row ["Owner Name", "J. Smith"]])
        "1 Main St" "u" "s").status = "success" := by
  have h := (C2_amended_portal (fun _ _ => Except.ok [Node.row ["Owner Name", "J. Smith"]])
      "1 Main St" "u" "s").1 [] [] "Owner Name" "J. Smith" [] rfl (by simp) (by decide)
  constructor
  · rw [h.1]
    decide
  · rw [h.2]
    decide

/-- Claim C10: an owner-name label row whose adjacent cell strips to the
empty string yields `owner_name = some ""` (the empty string, not `None`)
with `status = "not found"`; and for a parsed (non-error) response,
`owner_name = none` arises only from a missing label or a missing adjacent
cell (the first labelled row having fewer than two cells). -/
theorem C10_empty_owner_cell (net : Net) (addr url src : String) :
    (∀ pre rest c0 c1 cs,
      net url (splitAddress addr) = Except.ok (pre ++ Node.row (c0 :: c1 :: cs) :: rest) →
      (∀ n ∈ pre, nodeLabel n = false) → ownerLabel c0 = true → stripStr c1 = "" →
      (search_bas_portal net addr url src).owner_name = some "" ∧
      (search_bas_portal net addr url src).status = "not found") ∧
    (∀ html, net url (splitAddress addr) = Except.ok html →
      (search_bas_portal net addr url src).owner_name = none →
      (search_bas_portal net addr url src).status ≠ "error" →
      (∀ n ∈ html, nodeLabel n = false) ∨
      ∃ pre cells rest, html = pre ++ Node.row cells :: rest ∧
        (∀ n ∈ pre, nodeLabel n = false) ∧ cells.any ownerLabel = true ∧
        cells.length < 2) := by
  constructor
  · intro pre rest c0 c1 cs hnet hpre hc0 hc1
    unfold search_bas_portal
    rw [hnet]
    simp only [portalOutcome]
    rw [parse_label_row pre rest (c0 :: c1 :: cs) hpre (by simp [hc0]) (by simp)]
    constructor
    · show some (stripStr c1) = some ""
      rw [hc1]
    · show (if truthy (some (stripStr c1)) then "success" else "not found") = "not found"
      rw [hc1]
      rfl
  · intro html hnet hnone herr
    unfold search_bas_portal at hnone herr
    rw [hnet] at hnone herr
    simp only [portalOutcome] at hnone herr
    rcases hp : parse_bas_response html with e | owner
    · rw [hp] at herr
      exact absurd rfl herr
    · rw [hp] at hnone
      have howner : owner = none := hnone
      rw [howner] at hp
      exact parse_ok_none_cases html hp

/-- Witness for C10 at a concrete input: a whitespace-only adjacent cell
strips to the empty string and yields `owner_name = some ""`,
`status = "not found"`. -/
theorem C10_empty_owner_cell_witness :
    (search_bas_portal (fun _ _ => Except.ok [Node.row ["Owner Name", "  "]])
        "1 Main St" "u" "s").owner_name = some "" ∧
    (search_bas_portal (fun _ _ => Except.ok [Node.row ["Owner Name", "  "]])
        "1 Main St" "u" "s").status = "not found" :=
  (C10_empty_owner_cell (fun _ _ => Except.ok [Node.row ["Owner Name", "  "]])
      "1 Main St" "u" "s").1 [] [] "Owner Name" "  " [] rfl (by simp) (by decide) (by decide)

theorem attemptsAux_le (p : RetryPolicy) (statuses : Nat → Nat) :
    ∀ (fuel i : Nat), attemptsAux p statuses fuel i ≤ i + fuel + 1
  | 0, i => Nat.le_refl _
  | fuel + 1, i => by
    unfold attemptsAux
    split_ifs with h
    · have hle := attemptsAux_le p statuses fuel (i + 1)
      omega
    · omega

theorem attemptsAux_all (p : RetryPolicy) (statuses : Nat → Nat)
    (hall : ∀ i, statuses i ∈ p.status_forcelist) :
    ∀ (fuel i : Nat), attemptsAux p statuses fuel i = i + fuel + 1
  | 0, i => rfl
  | fuel + 1, i => by
    unfold attemptsAux
    rw [if_pos (hall i), attemptsAux_all p statuses hall fuel (i + 1)]
    omega

/-- Counterexample to claim C3 as stated: `Retry(total=3)` is a budget of 3
RETRIES after the initial request, so when every response is a transient
503 the session performs 4 requests — more than the claimed "3 attempts
total". -/
theorem C3_counterexample :
    attemptsMade retriesPolicy (fun _ => 503) = 4 ∧
    ¬ attemptsMade retriesPolicy (fun _ => 503) ≤ 3 := by
  constructor
  · rfl
  · decide

/-- Claim C3 amended: the session retries a request exactly on the
transient statuses 500, 502, 503 and 504, with a budget of 3 retries after
the initial attempt — at most 4 requests in total, exactly 4 when every
response is transient, and a single request when the first response is not
transient — and with doubling (exponential) backoff between consecutive
retries (`backoff_factor = 1`). -/
theorem C3_amended_retry (statuses : Nat → Nat) :
    retriesPolicy.status_forcelist = [500, 502, 503, 504] ∧
    attemptsMade retriesPolicy statuses ≤ 4 ∧
    ((∀ i, statuses i ∈ retriesPolicy.status_forcelist) →
      attemptsMade retriesPolicy statuses = 4) ∧
    (statuses 0 ∉ retriesPolicy.status_forcelist →
      attemptsMade retriesPolicy statuses = 1) ∧
    get_backoff_time retriesPolicy 2 = 2 ∧
    get_backoff_time retriesPolicy 3 = 2 * get_backoff_time retriesPolicy 2 := by
  refine ⟨rfl, ?_, ?_, ?_, by decide, by decide⟩
  · have h := attemptsAux_le retriesPolicy statuses 3 0
    exact h
  · intro hall
    exact attemptsAux_all retriesPolicy statuses hall 3 0
  · intro h0
    show attemptsAux retriesPolicy statuses (2 + 1) 0 = 1
    unfold attemptsAux
    rw [if_neg h0]

/-- Witness for the amended C3 at a concrete input: a first-response 200
makes exactly one request. -/
theorem C3_amended_retry_witness : attemptsMade retriesPolicy (fun _ => 200) = 1 :=
  (C3_amended_retry (fun _ => 200)).2.2.2.1 (by decide)

/-- Counterexample to claim C8 as stated: a JSON record with no address
value is mapped to the empty string and is NOT filtered out — the empty
string reaches `group_addresses_by_town`, where it lands in the Unknown
group. -/
theorem C8_counterexample :
    load_incident_addresses_json [none] = [""] ∧
    ("Unknown", [""]) ∈ group_addresses_by_town (load_incident_addresses_json [none]) := by
  constructor
  · rfl
  · decide

/-- Claim C8 amended: in the JSON path an absent address value is read as
the empty string and passed on unfiltered — it reaches
`group_addresses_by_town`, can land only in the `"Unknown"` group, and is
therefore never dispatched to a strategy and never appears in the output;
in the CSV path, missing (`NaN`) values are dropped by `dropna` before
grouping, so exactly the present values reach grouping. -/
theorem C8_amended_loading (records col : List (Option String)) (env : Env) :
    (none ∈ records → "" ∈ load_incident_addresses_json records) ∧
    (∀ k v, (k, v) ∈ group_addresses_by_town (load_incident_addresses_json records) →
      "" ∈ v → k = "Unknown") ∧
    ("" ∉ (mainResults env (load_incident_addresses_json records)).map
      ScrapeResult.address) ∧
    (∀ x, x ∈ load_incident_addresses_csv col ↔ some x ∈ col) := by
  refine ⟨?_, ?_, ?_, ?_⟩
  · intro h
    unfold load_incident_addresses_json
    exact List.mem_map.mpr ⟨none, h, rfl⟩
  · intro k v hkv hv
    rw [group_eq_filter] at hkv
    obtain ⟨k', _, he⟩ := List.mem_map.mp hkv
    obtain ⟨rfl, rfl⟩ := Prod.mk.injEq .. |>.mp he
    have hb : bucketOf "" = k' := eq_of_beq (List.mem_filter.mp hv).2
    rw [← hb]
    rfl
  · exact unknown_not_in_main env _ "" rfl
  · intro x
    unfold load_incident_addresses_csv
    simp [List.mem_filterMap]

/-- Witness for the amended C8 at a concrete input: one absent JSON record
produces the empty-string address. -/
theorem C8_amended_loading_witness :
    "" ∈ load_incident_addresses_json [none] :=
  (C8_amended_loading [none] [] offlineEnv).1 (by decide)

end Scraper
